import Mathlib

/-!
Verification of the RAG backend (rag-backend/src) against its natural-language
specification.  The Python sources are shallowly embedded: pure text
processing (chunking.py) becomes executable Lean functions on `String` /
`List Char`; the HTTP endpoints of main.py become `Except`-valued functions
over abstract external collaborators (embedding provider, vector index,
generation model, database), which the spec treats as pluggable services
behind narrow interfaces.  Machine integers are modelled as `Nat`/`ℚ`
(Python ints are unbounded; float arithmetic on sizes is exact in the
regimes exercised here and is modelled by exact arithmetic).
-/

/-! ## Python text primitives (faithful models of `str` operations used) -/

/-- The six characters Python `str.strip()` and the regex class `\s` treat as
whitespace: space, tab, newline, carriage return, vertical tab, form feed. -/
def isPyWs (c : Char) : Bool :=
  c == ' ' || c == '\t' || c == '\n' || c == '\r' || c == '\x0b' || c == '\x0c'

/-- Python `str.strip()` on a list of characters. -/
def pyStripL (l : List Char) : List Char :=
  ((l.dropWhile isPyWs).reverse.dropWhile isPyWs).reverse

/-- Python `str.strip()`. -/
def pyStrip (s : String) : String :=
  ⟨pyStripL s.data⟩

/-- Split a character list at every occurrence of `sep` (Python
`str.split(sep)` with an explicit separator: empty pieces are kept, and the
empty string yields `[""]`). -/
def splitSep (sep : Char) : List Char → List (List Char)
  | [] => [[]]
  | c :: cs =>
    let rest := splitSep sep cs
    if c == sep then [] :: rest
    else match rest with
      | [] => [[c]]
      | r :: rs => (c :: r) :: rs

/-- Python `str.split()` with no argument: split on whitespace runs,
dropping empty pieces. -/
def splitWs : List Char → List (List Char)
  | [] => []
  | c :: cs =>
    if isPyWs c then splitWs cs
    else match splitWs cs with
      | [] => [[c]]
      | r :: rs =>
        match cs with
        | [] => [[c]]
        | d :: _ => if isPyWs d then [c] :: r :: rs else (c :: r) :: rs

theorem dropWhile_length_le (p : Char → Bool) (l : List Char) :
    (l.dropWhile p).length ≤ l.length := by
  induction l with
  | nil => simp
  | cons c cs ih =>
    by_cases h : p c
    · simp only [List.dropWhile, h]
      exact Nat.le_succ_of_le ih
    · simp [List.dropWhile, h]

/-- `re.split(r"(?<=[.!?])\s+", content)`: cut the text after any of
`.` `!` `?` when whitespace follows, the whitespace run itself being
consumed.  `acc` is the current piece, kept reversed; `skipping` is true
while inside the consumed whitespace run. -/
def sentSplitAux (skipping : Bool) (acc : List Char) :
    List Char → List (List Char)
  | [] => [acc.reverse]
  | c :: cs =>
    if skipping then
      if isPyWs c then sentSplitAux true acc cs
      else sentSplitAux false [c] cs
    else
      if (match acc with
          | p :: _ => (p == '.' || p == '!' || p == '?') && isPyWs c
          | [] => false) then
        acc.reverse :: sentSplitAux true [] cs
      else
        sentSplitAux false (c :: acc) cs

/-- Sentence split of a string, as in `chunking.py` line 153. -/
def sentSplit (s : String) : List String :=
  (sentSplitAux false [] s.data).map (fun l => ⟨l⟩)

/-! ## SHA-256 (hashlib.sha256(...).hexdigest()), over `Nat` mod 2^32 -/

/-- UTF-8 encoding of one character (Python `str.encode()`), as byte values. -/
def utf8Bytes (c : Char) : List Nat :=
  let n := c.toNat
  if n < 0x80 then [n]
  else if n < 0x800 then [0xC0 + n / 0x40, 0x80 + n % 0x40]
  else if n < 0x10000 then
    [0xE0 + n / 0x1000, 0x80 + n / 0x40 % 0x40, 0x80 + n % 0x40]
  else
    [0xF0 + n / 0x40000, 0x80 + n / 0x1000 % 0x40, 0x80 + n / 0x40 % 0x40,
     0x80 + n % 0x40]

/-- UTF-8 encoding of a string. -/
def utf8Encode (s : String) : List Nat :=
  s.data.flatMap utf8Bytes

/-- Right rotation of a 32-bit word represented as `Nat`. -/
def rotr32 (n x : Nat) : Nat :=
  (x / 2 ^ n + x % 2 ^ n * 2 ^ (32 - n)) % 2 ^ 32

/-- The 64 SHA-256 round constants, written in decimal. -/
def sha256K : List Nat :=
  [1116352408, 1899447441, 3049323471, 3921009573, 961987163, 1508970993,
   2453635748, 2870763221, 3624381080, 310598401, 607225278, 1426881987,
   1925078388, 2162078206, 2614888103, 3248222580, 3835390401, 4022224774,
   264347078, 604807628, 770255983, 1249150122, 1555081692, 1996064986,
   2554220882, 2821834349, 2952996808, 3210313671, 3336571891, 3584528711,
   113926993, 338241895, 666307205, 773529912, 1294757372, 1396182291,
   1695183700, 1986661051, 2177026350, 2456956037, 2730485921, 2820302411,
   3259730800, 3345764771, 3516065817, 3600352804, 4094571909, 275423344,
   430227734, 506948616, 659060556, 883997877, 958139571, 1322822218,
   1537002063, 1747873779, 1955562222, 2024104815, 2227730452, 2361852424,
   2428436474, 2756734187, 3204031479, 3329325298]

/-- Pad a byte message per SHA-256: append 0x80, zeros, and the 64-bit
big-endian bit length, reaching a multiple of 64 bytes. -/
def sha256Pad (msg : List Nat) : List Nat :=
  let len := msg.length
  let zeros := (55 + 64 - len % 64) % 64
  let bitLen := len * 8
  msg ++ [0x80] ++ List.replicate zeros 0 ++
    (List.range 8).map (fun i => bitLen / 2 ^ (8 * (7 - i)) % 256)

/-- Big-endian 32-bit words from a byte list (length a multiple of 4). -/
def bytesToWords : List Nat → List Nat
  | a :: b :: c :: d :: rest =>
    (a * 0x1000000 + b * 0x10000 + c * 0x100 + d) :: bytesToWords rest
  | _ => []

/-- Extend 16 message words to the 64-entry SHA-256 schedule. -/
def sha256Schedule (w : List Nat) (i : Nat) : List Nat :=
  match i with
  | 0 => w
  | j + 1 =>
    let w0 := sha256Schedule w j
    let idx := w0.length
    let g (k : Nat) : Nat := w0.getD (idx - k) 0
    let s0 := (rotr32 7 (g 15)).xor ((rotr32 18 (g 15)).xor (g 15 / 2 ^ 3))
    let s1 := (rotr32 17 (g 2)).xor ((rotr32 19 (g 2)).xor (g 2 / 2 ^ 10))
    w0 ++ [(g 16 + s0 + g 7 + s1) % 2 ^ 32]

/-- One SHA-256 compression round. -/
def sha256Round (st : Nat × Nat × Nat × Nat × Nat × Nat × Nat × Nat)
    (kw : Nat × Nat) : Nat × Nat × Nat × Nat × Nat × Nat × Nat × Nat :=
  let (a, b, c, d, e, f, g, h) := st
  let s1 := (rotr32 6 e).xor ((rotr32 11 e).xor (rotr32 25 e))
  let ch := (e.land f).xor ((e.xor 0xFFFFFFFF).land g)
  let t1 := (h + s1 + ch + kw.1 + kw.2) % 2 ^ 32
  let s0 := (rotr32 2 a).xor ((rotr32 13 a).xor (rotr32 22 a))
  let mj := (a.land b).xor ((a.land c).xor (b.land c))
  let t2 := (s0 + mj) % 2 ^ 32
  ((t1 + t2) % 2 ^ 32, a, b, c, (d + t1) % 2 ^ 32, e, f, g)

/-- Process one 64-byte block given the running hash values. -/
def sha256Block (h : List Nat) (block : List Nat) : List Nat :=
  let w := sha256Schedule (bytesToWords block) 48
  let init := (h.getD 0 0, h.getD 1 0, h.getD 2 0, h.getD 3 0,
               h.getD 4 0, h.getD 5 0, h.getD 6 0, h.getD 7 0)
  let f := (sha256K.zip w).foldl sha256Round init
  [(h.getD 0 0 + f.1) % 2 ^ 32, (h.getD 1 0 + f.2.1) % 2 ^ 32,
   (h.getD 2 0 + f.2.2.1) % 2 ^ 32, (h.getD 3 0 + f.2.2.2.1) % 2 ^ 32,
   (h.getD 4 0 + f.2.2.2.2.1) % 2 ^ 32, (h.getD 5 0 + f.2.2.2.2.2.1) % 2 ^ 32,
   (h.getD 6 0 + f.2.2.2.2.2.2.1) % 2 ^ 32,
   (h.getD 7 0 + f.2.2.2.2.2.2.2) % 2 ^ 32]

/-- Fold the padded message, 64 bytes at a time. -/
def sha256Blocks (h : List Nat) : List Nat → List Nat
  | [] => h
  | c :: rest => sha256Blocks (sha256Block h ((c :: rest).take 64)) (rest.drop 63)
termination_by msg => msg.length
decreasing_by simp [List.length_drop]; omega

/-- SHA-256 digest of a byte message, as eight 32-bit words. -/
def sha256Words (msg : List Nat) : List Nat :=
  sha256Blocks
    [1779033703, 3144134277, 1013904242, 2773480762,
     1359893119, 2600822924, 528734635, 1541459225]
    (sha256Pad msg)

/-- Lower-case hex digit. -/
def hexDigit (n : Nat) : Char :=
  if n < 10 then Char.ofNat (48 + n) else Char.ofNat (87 + n)

/-- A 32-bit word as eight lower-case hex characters (big-endian). -/
def wordHex (w : Nat) : List Char :=
  [hexDigit (w / 2 ^ 28 % 16), hexDigit (w / 2 ^ 24 % 16),
   hexDigit (w / 2 ^ 20 % 16), hexDigit (w / 2 ^ 16 % 16),
   hexDigit (w / 2 ^ 12 % 16), hexDigit (w / 2 ^ 8 % 16),
   hexDigit (w / 2 ^ 4 % 16), hexDigit (w % 16)]

/-- `DocumentChunker.hash_content`: `hashlib.sha256(content.encode()).hexdigest()`
(chunking.py lines 179-182). -/
def hash_content (content : String) : String :=
  ⟨(sha256Words (utf8Encode content)).flatMap wordHex⟩

/-! ## DocumentChunker (chunking.py) -/

/-- `TARGET_CHUNK_TOKENS = 800` (chunking.py line 15). -/
def TARGET_CHUNK_TOKENS : Nat := 800

/-- `TARGET_CHUNK_CHARS = int(TARGET_CHUNK_TOKENS / TOKENS_PER_CHAR)` with
`TOKENS_PER_CHAR = 0.25`: the float arithmetic is exact, giving 3200. -/
def TARGET_CHUNK_CHARS : Nat := TARGET_CHUNK_TOKENS * 4

/-- `DocumentChunker.estimate_tokens`: `int(len(content) * 0.25)` — the float
product is exact, so this is floor division by 4. -/
def estimate_tokens (content : String) : Nat :=
  content.length / 4

/-- One chunk produced by `DocumentChunker.chunk_by_headings`: the dict
`{chapter, section, subsection?, content, content_hash, chunk_index}`.
`section` is a Lean keyword, rendered `sectionName`. -/
structure Chunk where
  chapter : String
  sectionName : String
  subsection : Option String
  content : String
  content_hash : String
  chunk_index : Nat
deriving Repr, DecidableEq

/-- The sentence/line/word accumulation loop of `chunk_by_tokens`
(chunking.py lines 159-170): grow `current` while appending the next unit
(space-joined) stays within `target` characters, otherwise flush
`current.strip()`. -/
def accumLoop (target : Nat) (chunks : List String) (current : String) :
    List String → List String
  | [] => if current = "" then chunks else chunks ++ [pyStrip current]
  | u :: us =>
    let test := current ++ (if current = "" then "" else " ") ++ u
    if test.length ≤ target then accumLoop target chunks test us
    else accumLoop target
      (if current = "" then chunks else chunks ++ [pyStrip current]) u us

/-- The character-count force split of `chunk_by_tokens` (lines 173-175):
`content[i:i+target].strip()` for `i in range(0, len, target)`.  Python
raises for step 0; the code only calls this with `target = 3200`, and the
`max target 1` step keeps the model total. -/
def hardSplit (target : Nat) (l : List Char) : List String :=
  if l.isEmpty then []
  else pyStrip ⟨l.take target⟩ :: hardSplit target (l.drop (max target 1))
termination_by l.length
decreasing_by
  rename_i h
  have h1 : 0 < l.length := by
    cases l with
    | nil => simp at h
    | cons a as => simp
  simp only [List.length_drop]
  omega

/-- `DocumentChunker.chunk_by_tokens` (chunking.py lines 135-177). -/
def chunk_by_tokens (content : String) (target_tokens : Nat) : List String :=
  let target_chars := target_tokens * 4
  let sentences := sentSplit content
  let units :=
    if sentences.length ≤ 1 then
      if content.data.contains '\n' then
        (splitSep '\n' content.data).map (fun l => (⟨l⟩ : String))
      else (splitWs content.data).map (fun l => (⟨l⟩ : String))
    else sentences
  let chunks := accumLoop target_chars [] "" units
  if chunks.isEmpty && content ≠ "" then hardSplit target_chars content.data
  else chunks

/-- A line matched by `re.split(r"^# +(.+?)$", ..., re.MULTILINE)`: `#`, at
least one space, at least one further character. -/
def isH1 (l : String) : Bool :=
  match l.data with
  | '#' :: ' ' :: _ :: _ => true
  | _ => false

/-- The captured H1 title, already `.strip()`-ed as the caller does:
stripping the whole remainder after `#` equals stripping the regex group. -/
def titleH1 (l : String) : String :=
  pyStrip ⟨l.data.drop 1⟩

/-- A line matched by `re.split(r"^## +(.+?)$", ..., re.MULTILINE)`. -/
def isH2 (l : String) : Bool :=
  match l.data with
  | '#' :: '#' :: ' ' :: _ :: _ => true
  | _ => false

/-- The captured H2 title, `.strip()`-ed. -/
def titleH2 (l : String) : String :=
  pyStrip ⟨l.data.drop 2⟩

/-- Model of `re.split` with a one-group full-line pattern under
`re.MULTILINE`, structured as (segment before the first heading,
list of (title, following segment)).  Python's flat alternating list
`[seg, title, seg, title, ..., seg]` is walked by the source two at a time
from index 1, which is exactly this pairing; a trailing missing segment is
`""` in both.  The newline before a heading line belongs to the preceding
segment, the newline after it to the following one. -/
def headSplitAux (isHead : String → Bool) (titleOf : String → String) :
    Bool → List String → String × List (String × String)
  | _, [] => ("", [])
  | first, l :: ls =>
    let pre := if first then "" else "\n"
    if isHead l then
      let rest := headSplitAux isHead titleOf false ls
      (pre, (titleOf l, rest.1) :: rest.2)
    else
      let rest := headSplitAux isHead titleOf false ls
      (pre ++ l ++ rest.1, rest.2)

/-- Split a document at full-line headings. -/
def headSplit (isHead : String → Bool) (titleOf : String → String)
    (content : String) : String × List (String × String) :=
  headSplitAux isHead titleOf true
    ((splitSep '\n' content.data).map (fun l => (⟨l⟩ : String)))

/-- `DocumentChunker.chunk_by_headings` (chunking.py lines 22-133): split on
H1 headings, then H2 within each; a small H2 body becomes one chunk
(with `### title` prefix, strip-checked to be non-empty), a large one is
token-split; if no chunks at all were produced, the whole content is
token-split with the caller-supplied chapter/section metadata.  Text before
the first H1, and text of an H1 section before its first H2, is discarded
(the source never reads `h1_sections[0]` / `h2_sections[0]`). -/
def chunk_by_headings (content : String) (chapter : String := "Unknown")
    (sectionArg : String := "Unknown") : List Chunk :=
  let h1 := (headSplit isH1 titleH1 content).2
  let step1 := h1.foldl (fun acc p =>
    let h2 := (headSplit isH2 titleH2 p.2).2
    h2.foldl (fun acc2 q =>
      if q.2.length ≤ 4800 then
        let chunkText := pyStrip ("### " ++ q.1 ++ "\n" ++ q.2)
        if chunkText = "" then acc2
        else acc2 ++ [⟨chapter, p.1, some q.1, chunkText,
          hash_content chunkText, acc2.length⟩]
      else
        (chunk_by_tokens q.2 TARGET_CHUNK_TOKENS).foldl (fun a sub =>
          let chunkText := pyStrip ("### " ++ q.1 ++ "\n" ++ sub)
          a ++ [⟨chapter, p.1, some q.1, chunkText,
            hash_content chunkText, a.length⟩]) acc2
    ) acc) ([] : List Chunk)
  if step1.isEmpty then
    (chunk_by_tokens content TARGET_CHUNK_TOKENS).foldl (fun a sub =>
      a ++ [⟨chapter, sectionArg, none, sub, hash_content sub, a.length⟩]) []
  else step1

/-! ## RetrieverAgent (retrieval_service.py) -/

/-- The metadata payload of a vector-index search hit, as the fields
`RetrieverAgent.retrieve` reads with `dict.get` defaults (lines 122-131):
absent keys are `none`. -/
structure SRMeta where
  doc_id : Option String
  chapter : Option String
  sectionName : Option String
  subsection : Option String
  chunk_index : Option Nat
  book_version : Option String
deriving Repr, DecidableEq

/-- One raw search result handed back by the vector index, with the keys
`retrieve` reads: `similarity_score`, `metadata`, `content`. -/
structure SearchResult where
  similarity_score : ℚ
  metadata : SRMeta
  content : Option String
deriving Repr, DecidableEq

/-- `RetrievedChunk` (retrieval_service.py lines 15-27). -/
structure RetrievedChunk where
  doc_id : String
  chapter : String
  sectionName : String
  content : String
  similarity_score : ℚ
  chunk_index : Nat
  subsection : Option String
  book_version : String
deriving Repr, DecidableEq

/-- Construction of a `RetrievedChunk` from a search result
(retrieval_service.py lines 121-132), with the source's `get` defaults. -/
def toRetrievedChunk (r : SearchResult) : RetrievedChunk where
  doc_id := r.metadata.doc_id.getD "unknown"
  chapter := r.metadata.chapter.getD "Unknown"
  sectionName := r.metadata.sectionName.getD "Unknown"
  subsection := r.metadata.subsection
  content := r.content.getD ""
  similarity_score := r.similarity_score
  chunk_index := r.metadata.chunk_index.getD 0
  book_version := r.metadata.book_version.getD "v1.0"

/-- The parse-and-filter loop of `retrieve` (lines 111-138): skip results
below `min_similarity`, append the rest, and break once `k` chunks are
collected (the length test runs after each append). -/
def parseLoop (minSim : ℚ) (k : Nat) (acc : List RetrievedChunk) :
    List SearchResult → List RetrievedChunk
  | [] => acc
  | r :: rs =>
    if r.similarity_score < minSim then parseLoop minSim k acc rs
    else
      let acc2 := acc ++ [toRetrievedChunk r]
      if k ≤ acc2.length then acc2 else parseLoop minSim k acc2 rs

/-- Retrieval metadata dict (lines 146-152). -/
structure RetrievalMeta where
  query_tokens : Nat
  chunks_retrieved : Nat
  mode : String
  book_version : String
  min_similarity : ℚ
deriving Repr, DecidableEq

/-- `RetrieverAgent.retrieve` (retrieval_service.py lines 58-154), with the
external collaborators abstracted: `embedFn` is the embedding provider call,
`estT` its token estimator, and `searchFn embedding k filters` the vector
index search.  `top_k` follows Python truthiness: `None` or `0` falls back
to the constructor default `selfTopK`.  The index is asked for `k * 2`
candidates (over-fetch), then `parseLoop` filters and caps. -/
def retrieve (embedFn : String → List ℚ) (estT : String → Nat)
    (searchFn : List ℚ → Nat → List (String × String) → List SearchResult)
    (selfTopK : Nat) (min_similarity : ℚ) (query : String)
    (top_k : Option Nat) (book_version : String)
    (chapter_filter : Option String) (mode : String) :
    List RetrievedChunk × RetrievalMeta :=
  let k := match top_k with
    | some n => if n = 0 then selfTopK else n
    | none => selfTopK
  let query_embedding := embedFn query
  let query_tokens := estT query
  let filters := [("book_version", book_version)] ++
    (match chapter_filter with | some c => [("chapter", c)] | none => [])
  let search_results := searchFn query_embedding (k * 2) filters
  let retrieved_chunks := parseLoop min_similarity k [] search_results
  (retrieved_chunks,
   { query_tokens := query_tokens,
     chunks_retrieved := retrieved_chunks.length,
     mode := mode, book_version := book_version,
     min_similarity := min_similarity })

/-! ## IngestionService (ingest_service.py) -/

/-- The ingestion stats dict returned by `ingest_chapter`. -/
structure IngestResult where
  ingested : Nat
  skipped : Nat
  vectors_stored : Nat
  total_chunks : Nat
  error : Option String
deriving Repr, DecidableEq

/-- `IngestionService.ingest_chapter` (ingest_service.py lines 27-193),
with the external collaborators abstracted: `db` is the set of
`content_hash` values already stored for this `book_version` (the dedup
query of lines 70-90), and `embedFn` the batch embedding call, which either
returns vectors or fails like the guarded call of lines 109-119.
`add_document` and the vector batch store are modelled as succeeding, so
`ingested` counts every zipped (chunk, embedding) pair as the loop of
lines 129-163 does.  Returns the stats dict and the hash set after the
call. -/
def ingest_chapter
    (embedFn : List String → Except String (List (List ℚ)))
    (db : List String) (chapter sectionArg content : String) :
    IngestResult × List String :=
  let chunks := chunk_by_headings content chapter sectionArg
  if chunks.isEmpty then
    ({ ingested := 0, skipped := 0, vectors_stored := 0, total_chunks := 0,
       error := some "No chunks generated" }, db)
  else
    let new_chunks := chunks.filter (fun c => c.content_hash ∉ db)
    let skipped_count := chunks.length - new_chunks.length
    if new_chunks.isEmpty then
      ({ ingested := 0, skipped := skipped_count, vectors_stored := 0,
         total_chunks := chunks.length, error := none }, db)
    else
      match embedFn (new_chunks.map (fun c => c.content)) with
      | .error e =>
        ({ ingested := 0, skipped := skipped_count, vectors_stored := 0,
           total_chunks := chunks.length,
           error := some ("Embedding failed: " ++ e) }, db)
      | .ok embeddings =>
        let pairs := new_chunks.zip embeddings
        ({ ingested := pairs.length, skipped := skipped_count,
           vectors_stored := pairs.length, total_chunks := chunks.length,
           error := none },
         db ++ (new_chunks.zip embeddings).map (fun p => p.1.content_hash))

/-! ## QdrantVectorStore (vector_store.py) -/

/-- The Qdrant point id derived in `store_vector` / `store_vectors_batch`
(vector_store.py lines 100 and 133): `hash(vector_id) % (2**31)`.
`pyHash` stands for Python's built-in `hash` on `str`, which CPython salts
with a per-process random seed (`PYTHONHASHSEED`), so it is a parameter of
the model, not a fixed function. -/
def point_id (pyHash : String → Nat) (vector_id : String) : Nat :=
  pyHash vector_id % 2 ^ 31

/-- `store_vectors_batch` (vector_store.py lines 113-146): build one point
per entry, upsert, and report `len(points)`. -/
def store_vectors_batch (pyHash : String → Nat)
    (vectors_data : List (String × List ℚ × List (String × String))) :
    List (Nat × List ℚ × List (String × String)) × Nat :=
  let points := vectors_data.map (fun v => (point_id pyHash v.1, v.2.1, v.2.2))
  (points, points.length)

/-! ## EmbeddingGenerator.embed_texts (embeddings.py) -/

/-- Python exceptions surfaced by the embedded code. -/
inductive PyErr where
  | valueError (msg : String)
  | http (statusCode : Nat) (detail : String)
  | other (msg : String)
deriving Repr, DecidableEq

/-- `EmbeddingGenerator.embed_texts` (embeddings.py lines 91-134): reject an
empty list and more than 2048 texts with `ValueError` before any provider
traffic, otherwise return the provider's embeddings (one `item.embedding`
per element of `response.data`, in response order).  `api` is the OpenAI
`embeddings.create` call. -/
def embed_texts (api : List String → Except String (List (List ℚ)))
    (texts : List String) : Except PyErr (List (List ℚ)) :=
  if texts.isEmpty then .error (.valueError "No texts provided")
  else if 2048 < texts.length then
    .error (.valueError ("Too many texts: " ++ toString texts.length ++
      " (max 2048)"))
  else
    match api texts with
    | .ok response => .ok response
    | .error e => .error (.other e)

/-- An order-preserving embedding backend: one vector per input, in input
order (the OpenAI batch-embedding response contract). -/
def orderedApi (embedOne : String → List ℚ) :
    List String → Except String (List (List ℚ)) :=
  fun texts => .ok (texts.map embedOne)

/-! ## Configuration defaults (config.py lines 45-46) -/

/-- `Settings.max_selected_text_tokens` default. -/
def max_selected_text_tokens : Nat := 2000

/-- `Settings.max_selected_text_characters` default. -/
def max_selected_text_characters : Nat := 10000

/-! ## validate_response_in_context (validation.py) -/

/-- Dot product of two embedding vectors (`np.dot` on equal-length lists;
`zipWith` like NumPy ignores a length mismatch's tail). -/
def dotR (a b : List ℝ) : ℝ :=
  (List.zipWith (fun x y => x * y) a b).sum

/-- Euclidean norm (`np.linalg.norm`). -/
noncomputable def normR (a : List ℝ) : ℝ :=
  Real.sqrt (dotR a a)

/-- Cosine similarity of two vectors, with Lean's total division (division
by a zero norm yields 0). -/
noncomputable def cosineSim (a b : List ℝ) : ℝ :=
  dotR a b / (normR a * normR b)

/-- `validate_response_in_context` (validation.py lines 13-73): embed the
response and the selected text, return `(False, 0.0)` if either embedding
has zero norm, otherwise compare the cosine similarity against the 0.75
threshold and clamp the reported confidence to [0, 1].  `embed` is the
embedding provider; NumPy float arithmetic is idealised as real
arithmetic. -/
noncomputable def validate_response_in_context (embed : String → List ℝ)
    (response selected_text : String) : Bool × ℝ :=
  let response_embedding := embed response
  let context_embedding := embed selected_text
  let dot_product := dotR response_embedding context_embedding
  let norm_response := normR response_embedding
  let norm_context := normR context_embedding
  if norm_response = 0 ∨ norm_context = 0 then (false, 0)
  else
    let similarity := dot_product / (norm_response * norm_context)
    let is_valid : Bool := decide ((0.75 : ℝ) ≤ similarity)
    (is_valid, max 0 (min 1 similarity))

/-! ## The query endpoints of main.py -/

/-- `GeneratedAnswer`-shaped output of the generation agent (the
`generation_service` module is imported by main.py but absent from the
repository; its result shape is read off the call sites
`generated.content` / `generated.input_tokens` / `generated.output_tokens`). -/
structure GeneratedAnswer where
  content : String
  input_tokens : Nat
  output_tokens : Nat
deriving Repr, DecidableEq

/-- `SourceChunk` response item (main.py). -/
structure SourceChunk where
  doc_id : String
  chapter : String
  sectionName : String
  similarity_score : ℚ
  content : String
deriving Repr, DecidableEq

/-- `QueryResponse` (main.py); wall-clock latency is environmental and
modelled as 0. -/
structure QueryResponse where
  response : String
  sources : List SourceChunk
  latency_ms : Nat
  mode : String
  input_tokens : Nat
  output_tokens : Nat
deriving Repr, DecidableEq

/-- The fixed fallback sentence substituted for an ungrounded answer in
selected-text mode (main.py lines 740-743). -/
def selectedTextFallback : String :=
  "I couldn't find an answer to your question in the selected text. Try selecting more context or switching to full-book mode."

/-- The proportional truncation of an over-long selected text
(main.py lines 707-713): if the estimated token count exceeds the limit,
keep the prefix of `int(len * maxTokens / tokens)` characters (the float
ratio arithmetic idealised as exact, hence floor division). -/
def truncatedSelectedText (maxTokens : Nat) (estT : String → Nat)
    (st : String) : String :=
  let tokens := estT st
  if maxTokens < tokens then ⟨st.data.take (st.length * maxTokens / tokens)⟩
  else st

/-- `query_selected_text` (main.py lines 651-811): validate the query and
the selected text, reject over-character-limit text with HTTP 413, truncate
over-token-limit text proportionally, generate with the selected text as
sole context, replace an answer that fails groundedness validation with the
fixed fallback, and return the selection as the single source.  External
collaborators are parameters: `estT` (provider token estimator),
`generate query context selected_text` (generation agent, modelled as
non-failing), `validateFn` (groundedness validator); the fire-and-forget
database write of lines 745-774 swallows its errors and is omitted.
Errors are `(status_code, detail)`. -/
def query_selected_text (estT : String → Nat)
    (generate : String → String → String → GeneratedAnswer)
    (validateFn : String → String → Bool × ℝ)
    (maxChars maxTokens : Nat) (query selected_text : String) :
    Except (Nat × String) QueryResponse :=
  if pyStrip query = "" then .error (400, "Query cannot be empty")
  else if selected_text = "" ∨ pyStrip selected_text = "" then
    .error (400, "Selected text cannot be empty")
  else
    let st0 := pyStrip selected_text
    if maxChars < st0.length then
      .error (413, "Selected text too long (max " ++ toString maxChars ++
        " chars)")
    else
      let st := truncatedSelectedText maxTokens estT st0
      let context := "[User Selected Text]\n" ++ st
      let generated := generate query context st
      let validated := validateFn generated.content st
      let finalContent :=
        if validated.1 then generated.content else selectedTextFallback
      .ok { response := finalContent,
            sources := [{ doc_id := "selected_text",
                          chapter := "User Selection",
                          sectionName := "Highlighted Text",
                          similarity_score := 1,
                          content := ⟨st.data.take 200⟩ }],
            latency_ms := 0, mode := "selected_text",
            input_tokens := generated.input_tokens,
            output_tokens := generated.output_tokens }

/-- The inline context assembly of `query_content` (main.py lines 560-568):
labeled source headers joined by blank lines.  `fmtScore` renders the
similarity as Python's `f"{score:.2f}"`. -/
def assembleContext (fmtScore : ℚ → String)
    (chunks : List RetrievedChunk) : String :=
  String.intercalate "\n\n"
    ((chunks.enum.map (fun p => (p.2, p.1 + 1))).map (fun p =>
      let chunk := p.1
      let source := chunk.chapter ++ " > " ++ chunk.sectionName ++
        (match chunk.subsection with
         | some sub => " > " ++ sub
         | none => "")
      "[Source " ++ toString p.2 ++ ": " ++ source ++ " (sim: " ++
        fmtScore chunk.similarity_score ++ ")]\n" ++ chunk.content))

/-- The fixed no-relevant-content answer of `query_content`
(main.py line 551). -/
def noContentAnswer : String :=
  "I couldn't find relevant information in the course materials to answer your question."

/-- `query_content` (main.py lines 503-648): empty queries are rejected with
HTTP 400; an empty retrieval yields the fixed couldn't-find answer with no
sources; otherwise the assembled context goes to generation and the answer
is returned with truncated source excerpts.  `retrieveFn`/`generateFn` may
raise (`PyErr`); `storeFn` is the interaction write whose failure is logged
and swallowed (lines 609-611).  The outer boundary re-raises
`HTTPException`s and converts anything else to HTTP 500
(lines 641-648). -/
def query_content (fmtScore : ℚ → String)
    (retrieveFn : Except PyErr (List RetrievedChunk))
    (generateFn : String → String → Except PyErr GeneratedAnswer)
    (storeFn : Except PyErr Unit) (query mode : String) :
    Except (Nat × String) QueryResponse :=
  let body : Except PyErr QueryResponse :=
    if pyStrip query = "" then .error (.http 400 "Query cannot be empty")
    else
      match retrieveFn with
      | .error e => .error e
      | .ok retrieved_chunks =>
        if retrieved_chunks.isEmpty then
          .ok { response := noContentAnswer, sources := [],
                latency_ms := 0, mode := mode,
                input_tokens := 0, output_tokens := 0 }
        else
          let context := assembleContext fmtScore retrieved_chunks
          match generateFn query context with
          | .error e => .error e
          | .ok generated =>
            let _ := storeFn
            .ok { response := generated.content,
                  sources := retrieved_chunks.map (fun c =>
                    { doc_id := c.doc_id, chapter := c.chapter,
                      sectionName := c.sectionName,
                      similarity_score := c.similarity_score,
                      content := ⟨c.content.data.take 200⟩ }),
                  latency_ms := 0, mode := mode,
                  input_tokens := generated.input_tokens,
                  output_tokens := generated.output_tokens }
  match body with
  | .ok r => .ok r
  | .error (.http code detail) => .error (code, detail)
  | .error (.valueError m) =>
    .error (500, "Query processing failed: " ++ m)
  | .error (.other m) => .error (500, "Query processing failed: " ++ m)

/-! ## Helper lemmas: digest shape -/

theorem sha256Block_length (h b : List Nat) : (sha256Block h b).length = 8 := by
  simp [sha256Block]

theorem sha256Blocks_length_aux (n : Nat) : ∀ msg : List Nat,
    msg.length ≤ n → ∀ h : List Nat, h.length = 8 →
    (sha256Blocks h msg).length = 8 := by
  induction n with
  | zero =>
    intro msg hm h hh
    have : msg = [] := List.eq_nil_of_length_eq_zero (Nat.le_zero.mp hm)
    subst this
    simpa [sha256Blocks] using hh
  | succ n ih =>
    intro msg hm h hh
    cases msg with
    | nil => simpa [sha256Blocks] using hh
    | cons c rest =>
      rw [sha256Blocks]
      exact ih _ (by simp at hm ⊢; omega) _ (sha256Block_length _ _)

theorem sha256Words_length (msg : List Nat) : (sha256Words msg).length = 8 :=
  sha256Blocks_length_aux (sha256Pad msg).length _ le_rfl _ rfl

theorem wordHex_length (w : Nat) : (wordHex w).length = 8 := rfl

theorem flatMap_wordHex_length (L : List Nat) :
    (L.flatMap wordHex).length = 8 * L.length := by
  induction L with
  | nil => simp
  | cons a t ih => simp [List.flatMap_cons, ih, wordHex_length]; omega

theorem hash_content_length (s : String) : (hash_content s).length = 64 := by
  show ((sha256Words (utf8Encode s)).flatMap wordHex).length = 64
  rw [flatMap_wordHex_length, sha256Words_length]

theorem hash_content_ne_empty (s : String) : hash_content s ≠ "" := by
  intro h
  have h64 := hash_content_length s
  rw [h] at h64
  simp [String.length] at h64

/-! ## Helper lemmas: strip and fold invariants -/

theorem dropWhile_ne_nil_of_mem {p : Char → Bool} {l : List Char} {c : Char}
    (hc : c ∈ l) (hp : p c = false) : l.dropWhile p ≠ [] := by
  intro h
  rw [List.dropWhile_eq_nil_iff] at h
  have := h c hc
  rw [hp] at this
  exact Bool.noConfusion this

theorem pyStripL_ne_nil {l : List Char} {c : Char} (hc : c ∈ l)
    (hp : isPyWs c = false) : pyStripL l ≠ [] := by
  unfold pyStripL
  intro h
  have h1 : (l.dropWhile isPyWs).reverse.dropWhile isPyWs = [] := by
    have := congrArg List.reverse h
    simpa using this
  by_cases hcl : c ∈ l.dropWhile isPyWs
  · exact dropWhile_ne_nil_of_mem (by simpa using hcl) hp h1
  · have hall : ∀ x ∈ l.takeWhile isPyWs, isPyWs x = true :=
      fun x hx => List.mem_takeWhile_imp hx
    have : c ∈ l.takeWhile isPyWs ++ l.dropWhile isPyWs := by
      rw [List.takeWhile_append_dropWhile]; exact hc
    rcases List.mem_append.mp this with h2 | h2
    · rw [hall c h2] at hp; exact Bool.noConfusion hp
    · exact hcl h2

theorem pyStrip_hashes_ne_empty (s : String) :
    pyStrip ("### " ++ s) ≠ "" := by
  unfold pyStrip
  intro h
  have hdata : pyStripL ("### " ++ s).data = [] := congrArg String.data h
  have hmem : '#' ∈ ("### " ++ s).data := by
    have : ("### " ++ s).data = '#' :: '#' :: '#' :: ' ' :: s.data := rfl
    rw [this]; exact List.mem_cons_self _ _
  exact pyStripL_ne_nil hmem (by decide) hdata

/-- Members of a foldl that only appends elements satisfying `P` to its
accumulator are old members or satisfy `P`. -/
theorem foldl_append_invariant {α β : Type} (P : β → Prop)
    (f : List β → α → List β)
    (hf : ∀ acc a c, c ∈ f acc a → c ∈ acc ∨ P c) :
    ∀ (l : List α) (acc : List β) (c : β), c ∈ l.foldl f acc →
      c ∈ acc ∨ P c := by
  intro l
  induction l with
  | nil => intro acc c hc; exact Or.inl hc
  | cons a t ih =>
    intro acc c hc
    rcases ih (f acc a) c hc with h | h
    · exact hf acc a c h
    · exact Or.inr h

/-! ## C7 and C8: chunker edge cases and Scenario A -/

theorem chunk_by_tokens_empty (t : Nat) : chunk_by_tokens "" t = [] := rfl

theorem chunk_by_headings_empty (ch s : String) :
    chunk_by_headings "" ch s = [] := rfl

theorem heading_chunks_nonempty (content ch s : String) :
    ∀ c ∈ chunk_by_headings content ch s, c.subsection ≠ none →
      c.content ≠ "" := by
  intro c hc hsub
  unfold chunk_by_headings at hc
  simp only [] at hc
  split at hc
  · -- fallback branch: every chunk has subsection `none`
    have := foldl_append_invariant (fun c => c.subsection = none)
      _ (by
        intro acc a d hd
        simp only [List.mem_append, List.mem_singleton] at hd
        rcases hd with h | h
        · exact Or.inl h
        · subst h; exact Or.inr rfl)
      _ _ c hc
    rcases this with h | h
    · simp at h
    · exact absurd h hsub
  · -- heading branch: every appended chunk has non-empty content
    have := foldl_append_invariant (fun c : Chunk => c.content ≠ "")
      _ (by
        intro acc p d hd
        exact foldl_append_invariant (fun c : Chunk => c.content ≠ "")
          _ (by
            intro acc2 q e he
            split at he
            · split at he
              · exact Or.inl he
              · simp only [List.mem_append, List.mem_singleton] at he
                rcases he with h | h
                · exact Or.inl h
                · subst h
                  rename_i hne
                  exact Or.inr hne
            · refine foldl_append_invariant (fun c : Chunk => c.content ≠ "")
                _ ?_ _ _ e he
              intro a3 sub d3 hd3
              simp only [List.mem_append, List.mem_singleton] at hd3
              rcases hd3 with h | h
              · exact Or.inl h
              · subst h
                refine Or.inr ?_
                show pyStrip ("### " ++ q.1 ++ "\n" ++ sub) ≠ ""
                rw [String.append_assoc, String.append_assoc]
                exact pyStrip_hashes_ne_empty _)
          _ _ d hd)
      _ _ c hc
    rcases this with h | h
    · simp at h
    · exact h

/-- C7 (counterexample): the claim "a chunk's content is never the empty
string" fails on the code: chunking the whitespace document `"\n \n"` goes
through the no-heading token fallback, whose line accumulation flushes
`"  ".strip()`, producing exactly one chunk whose content is the empty
string. -/
theorem C7_counterexample :
    (chunk_by_headings "\n \n" "Unknown" "Unknown").map
      (fun c => c.content) = [""] := by decide

/-- C7 (amended): empty content yields zero chunks from both the token
splitter and the heading splitter, and `ingest_chapter` surfaces that as the
structured `"No chunks generated"` error rather than a panic; every chunk
produced through the heading path (those carrying a `subsection`) has
non-empty content; only the no-heading token-fallback path can emit an
empty-string chunk (as the counterexample shows). -/
theorem C7_amended_empty_chunks :
    (∀ t, chunk_by_tokens "" t = []) ∧
    (∀ ch s, chunk_by_headings "" ch s = []) ∧
    (∀ embedFn db ch s, ingest_chapter embedFn db ch s "" =
      ({ ingested := 0, skipped := 0, vectors_stored := 0, total_chunks := 0,
         error := some "No chunks generated" }, db)) ∧
    (∀ content ch s, ∀ c ∈ chunk_by_headings content ch s,
      c.subsection ≠ none → c.content ≠ "") :=
  ⟨chunk_by_tokens_empty, chunk_by_headings_empty,
   fun _ _ _ _ => rfl, heading_chunks_nonempty⟩

/-- C7 (witness): the heading-path guarantee applied to a concrete
document whose single chunk carries subsection `"B"`. -/
theorem C7_witness :
    ({ chapter := "c", sectionName := "A", subsection := some "B",
       content := "### B\n\nbody",
       content_hash := hash_content "### B\n\nbody",
       chunk_index := 0 } : Chunk).content ≠ "" := by
  refine C7_amended_empty_chunks.2.2.2 "# A\n## B\nbody" "c" "s" _ ?_ ?_
  · rw [show chunk_by_headings "# A\n## B\nbody" "c" "s" =
      [{ chapter := "c", sectionName := "A", subsection := some "B",
         content := "### B\n\nbody",
         content_hash := hash_content "### B\n\nbody",
         chunk_index := 0 }] from rfl]
    exact List.mem_singleton_self _
  · simp

/-- C8 (counterexample): ingesting `"# Intro\nROS 2 is a robotics
middleware."` yields exactly one chunk, but its `chapter` is the
caller-supplied argument (default `"Unknown"`), not `"Intro"`: the lone H1
section contains no H2 heading, so the heading pass produces nothing and
the whole document goes through the token fallback, which drops the H1
title. -/
theorem C8_counterexample :
    (chunk_by_headings "# Intro\nROS 2 is a robotics middleware."
        "Unknown" "Unknown").map (fun c => c.chapter) = ["Unknown"] ∧
      ("Unknown" : String) ≠ "Intro" := ⟨by decide, by decide⟩

/-- C8 (amended): for every caller-supplied chapter/section, ingesting
`"# Intro\nROS 2 is a robotics middleware."` yields exactly one chunk via
the token fallback; its content is the newline-joined document (the H1
title survives only inside the text), its chapter/section are the
caller-supplied arguments, and its `content_hash` is non-empty (64 hex
characters). -/
theorem C8_amended_scenario_a (ch s : String) :
    chunk_by_headings "# Intro\nROS 2 is a robotics middleware." ch s =
      [{ chapter := ch, sectionName := s, subsection := none,
         content := "# Intro ROS 2 is a robotics middleware.",
         content_hash :=
           hash_content "# Intro ROS 2 is a robotics middleware.",
         chunk_index := 0 }] ∧
    (hash_content "# Intro ROS 2 is a robotics middleware.").length = 64 ∧
    hash_content "# Intro ROS 2 is a robotics middleware." ≠ "" :=
  ⟨rfl, hash_content_length _, hash_content_ne_empty _⟩

/-! ## C3 and C9: the retrieval filter/cap loop -/

/-- The survivor predicate of the retrieval loop: not strictly below the
similarity floor. -/
def passesFloor (minSim : ℚ) (r : SearchResult) : Bool :=
  decide (minSim ≤ r.similarity_score)

theorem parseLoop_eq (minSim : ℚ) (k : Nat) :
    ∀ (l : List SearchResult) (acc : List RetrievedChunk),
      acc.length < max 1 k →
      parseLoop minSim k acc l =
        acc ++ ((l.filter (passesFloor minSim)).map
          toRetrievedChunk).take (max 1 k - acc.length) := by
  intro l
  induction l with
  | nil => intro acc hacc; simp [parseLoop]
  | cons r rs ih =>
    intro acc hacc
    by_cases hlt : r.similarity_score < minSim
    · rw [parseLoop, if_pos hlt]
      rw [ih acc hacc]
      have hpf : passesFloor minSim r = false := by
        simp [passesFloor]; exact hlt
      simp [List.filter_cons, hpf]
    · rw [parseLoop, if_neg hlt]
      have hpf : passesFloor minSim r = true := by
        simp [passesFloor]; exact le_of_not_lt hlt
      simp only [List.filter_cons, hpf, if_true, List.map_cons]
      obtain ⟨m, hm⟩ : ∃ m, max 1 k - acc.length = m + 1 :=
        ⟨max 1 k - acc.length - 1, by omega⟩
      rw [hm, List.take_succ_cons]
      by_cases hk : k ≤ (acc ++ [toRetrievedChunk r]).length
      · rw [if_pos hk]
        have hm0 : m = 0 := by
          simp at hk
          omega
        subst hm0
        simp
      · rw [if_neg hk]
        have hlen : (acc ++ [toRetrievedChunk r]).length < max 1 k := by
          simp at hk ⊢
          omega
        rw [ih _ hlen]
        have : max 1 k - (acc ++ [toRetrievedChunk r]).length = m := by
          simp at hk ⊢
          omega
        rw [this]
        simp

/-- C3: for every query, `retrieve` asks the vector index for `2*top_k`
candidates (with the book-version/chapter filters), discards every
candidate whose `similarity_score` is strictly below `min_similarity`,
keeps the survivors in the order the index returned them (so a
descending-score index response stays descending: the code never
re-sorts), and returns at most `top_k` chunks — exactly the first `top_k`
survivors. -/
theorem C3_retrieve_overfetch_filter_cap
    (embedFn : String → List ℚ) (estT : String → Nat)
    (searchFn : List ℚ → Nat → List (String × String) → List SearchResult)
    (selfTopK : Nat) (minSim : ℚ) (query : String) (n : Nat) (hn : 1 ≤ n)
    (bv : String) (chf : Option String) (mode : String) :
    (retrieve embedFn estT searchFn selfTopK minSim query (some n) bv chf
        mode).1 =
      (((searchFn (embedFn query) (n * 2)
          ([("book_version", bv)] ++
            (match chf with | some c => [("chapter", c)] | none => []))).filter
        (passesFloor minSim)).map toRetrievedChunk).take n ∧
    (retrieve embedFn estT searchFn selfTopK minSim query (some n) bv chf
        mode).1.length ≤ n ∧
    ((searchFn (embedFn query) (n * 2)
        ([("book_version", bv)] ++
          (match chf with | some c => [("chapter", c)] | none => []))).Pairwise
        (fun a b => b.similarity_score ≤ a.similarity_score) →
      (retrieve embedFn estT searchFn selfTopK minSim query (some n) bv chf
          mode).1.Pairwise
        (fun a b => b.similarity_score ≤ a.similarity_score)) := by
  have hk : (if n = 0 then selfTopK else n) = n := by
    rw [if_neg]; omega
  have heq : (retrieve embedFn estT searchFn selfTopK minSim query (some n)
      bv chf mode).1 =
      (((searchFn (embedFn query) (n * 2)
          ([("book_version", bv)] ++
            (match chf with | some c => [("chapter", c)] | none => []))).filter
        (passesFloor minSim)).map toRetrievedChunk).take n := by
    show parseLoop minSim (if n = 0 then selfTopK else n) [] _ = _
    rw [hk, parseLoop_eq minSim n _ []
      (by simp only [List.length_nil]
          exact Nat.lt_of_lt_of_le Nat.zero_lt_one (le_max_left 1 _))]
    have hmax : max 1 n = n := by omega
    simp [hk, hmax]
  refine ⟨heq, ?_, ?_⟩
  · rw [heq]
    exact List.length_take_le _ _
  · intro hsorted
    rw [heq]
    refine List.Pairwise.sublist (List.take_sublist _ _) ?_
    refine List.Pairwise.map _ (fun a b hab => ?_) (hsorted.filter _)
    exact hab

/-- C3 (witness): the characterization at a concrete index response of
three scored results, floor 1/2, top_k 2. -/
theorem C3_witness :
    (retrieve (fun _ => [1]) (fun _ => 0)
        (fun _ _ _ =>
          [{ similarity_score := 9/10,
             metadata := ⟨some "d1", none, none, none, none, none⟩,
             content := some "a" },
           { similarity_score := 1/4,
             metadata := ⟨some "d2", none, none, none, none, none⟩,
             content := some "b" },
           { similarity_score := 3/5,
             metadata := ⟨some "d3", none, none, none, none, none⟩,
             content := some "c" },
           { similarity_score := 11/20,
             metadata := ⟨some "d4", none, none, none, none, none⟩,
             content := some "d" }])
        5 (1/2) "What is ROS 2?" (some 2) "v1.0" none "full_book").1.map
      (fun c => (c.doc_id, c.similarity_score)) =
      [("d1", 9/10), ("d3", 3/5)] := by
  rw [(C3_retrieve_overfetch_filter_cap (fun _ => [1]) (fun _ => 0) _ 5
    (1/2) "What is ROS 2?" 2 (by omega) "v1.0" none "full_book").1]
  norm_num [passesFloor, List.filter_cons, toRetrievedChunk]

/-- C9: for a fixed query and index state, raising the similarity floor
never increases the number of chunks `retrieve` returns. -/
theorem C9_similarity_floor_monotone
    (embedFn : String → List ℚ) (estT : String → Nat)
    (searchFn : List ℚ → Nat → List (String × String) → List SearchResult)
    (selfTopK : Nat) (query : String) (top_k : Option Nat) (bv : String)
    (chf : Option String) (mode : String) (f1 f2 : ℚ) (h : f1 ≤ f2) :
    (retrieve embedFn estT searchFn selfTopK f2 query top_k bv chf
        mode).1.length ≤
      (retrieve embedFn estT searchFn selfTopK f1 query top_k bv chf
        mode).1.length := by
  show (parseLoop f2 _ [] _).length ≤ (parseLoop f1 _ [] _).length
  rw [parseLoop_eq f2 _ _ []
      (by simp only [List.length_nil]
          exact Nat.lt_of_lt_of_le Nat.zero_lt_one (le_max_left 1 _)),
    parseLoop_eq f1 _ _ []
      (by simp only [List.length_nil]
          exact Nat.lt_of_lt_of_le Nat.zero_lt_one (le_max_left 1 _))]
  simp only [List.nil_append, List.length_take, List.length_map,
    Nat.sub_zero]
  refine min_le_min le_rfl (List.Sublist.length_le ?_)
  refine List.monotone_filter_right _ (fun r hr => ?_)
  simp only [passesFloor, decide_eq_true_eq] at hr ⊢
  exact le_trans h hr

/-- C9 (witness): the floor monotonicity at the concrete floors 1/4 ≤ 3/4
over a two-result index response. -/
theorem C9_witness :
    ((1 : ℚ)/4 ≤ 3/4) ∧
    (retrieve (fun _ => [1]) (fun _ => 0)
        (fun _ _ _ =>
          [{ similarity_score := 4/5,
             metadata := ⟨none, none, none, none, none, none⟩,
             content := none },
           { similarity_score := 1/2,
             metadata := ⟨none, none, none, none, none, none⟩,
             content := none }])
        5 (3/4) "q" none "v1.0" none "full_book").1.length ≤
      (retrieve (fun _ => [1]) (fun _ => 0)
        (fun _ _ _ =>
          [{ similarity_score := 4/5,
             metadata := ⟨none, none, none, none, none, none⟩,
             content := none },
           { similarity_score := 1/2,
             metadata := ⟨none, none, none, none, none, none⟩,
             content := none }])
        5 (1/4) "q" none "v1.0" none "full_book").1.length :=
  ⟨by norm_num,
   C9_similarity_floor_monotone (fun _ => [1]) (fun _ => 0) _ 5 "q" none
     "v1.0" none "full_book" (1/4) (3/4) (by norm_num)⟩

/-- C10: `embed_texts` raises `ValueError` before any provider call when
the input list is empty or longer than 2048 (the result is the same error
for every provider `api`, so no provider traffic can have occurred); for
every other list it returns the provider response unchanged — with an
order-preserving backend, exactly one embedding per input text, in input
order. -/
theorem C10_embed_texts_validation_order (texts : List String) :
    (texts = [] →
      ∀ api, embed_texts api texts = .error (.valueError "No texts provided")) ∧
    (2048 < texts.length →
      ∀ api, embed_texts api texts =
        .error (.valueError ("Too many texts: " ++ toString texts.length ++
          " (max 2048)"))) ∧
    (texts ≠ [] → texts.length ≤ 2048 →
      ∀ embedOne, embed_texts (orderedApi embedOne) texts =
        .ok (texts.map embedOne)) := by
  refine ⟨?_, ?_, ?_⟩
  · intro h api
    subst h
    rfl
  · intro h api
    unfold embed_texts
    rw [if_neg, if_pos h]
    intro hemp
    rw [List.isEmpty_iff] at hemp
    subst hemp
    simp at h
  · intro h1 h2 embedOne
    unfold embed_texts
    rw [if_neg (by rwa [ne_eq, ← List.isEmpty_iff] at h1), if_neg (by omega)]
    rfl

/-- C10 (witness): the three branches at concrete inputs: a two-element
list embeds in order, the empty list and a 2049-element list are rejected
for every provider. -/
theorem C10_witness :
    (embed_texts (orderedApi (fun _ => ([] : List ℚ))) ["ab", "c"] =
      .ok [[], []]) ∧
    (∀ api, embed_texts api [] = .error (.valueError "No texts provided")) ∧
    (∀ api, embed_texts api (List.replicate 2049 "x") =
      .error (.valueError ("Too many texts: " ++
        toString (List.replicate 2049 "x").length ++ " (max 2048)"))) :=
  by
  refine ⟨?_, ?_, ?_⟩
  · have h := (C10_embed_texts_validation_order ["ab", "c"]).2.2
      (by decide) (by decide) (fun _ => ([] : List ℚ))
    simpa using h
  · exact (C10_embed_texts_validation_order []).1 rfl
  · exact (C10_embed_texts_validation_order (List.replicate 2049 "x")).2.1
      (by rw [List.length_replicate]; omega)

/-- C5: the Qdrant point id is `hash(vector_id) % (2**31)` where `hash` is
Python's per-process salted string hash, modelled as the parameter
`pyHash`.  The id does stay below `2^31` (the "positive int" the comment
promises), but it is a function of the process hash, not of the chunk
identity alone — two process runs (two admissible `pyHash` functions) can
derive different ids for the same `vector_id`, so repeated upserts across
runs need not overwrite; and for any fixed `pyHash` the 31-bit range forces
collisions between distinct logical ids, so the derivation is not
collision-resistant either. -/
theorem C5_point_id_unstable :
    (∀ pyHash : String → Nat, ∀ v, point_id pyHash v < 2 ^ 31) ∧
    (∃ h₁ h₂ : String → Nat,
      point_id h₁ "Intro_Basics_0" ≠ point_id h₂ "Intro_Basics_0") ∧
    (∀ pyHash : String → Nat,
      ∃ a b : String, a ≠ b ∧ point_id pyHash a = point_id pyHash b) := by
  refine ⟨fun pyHash v => Nat.mod_lt _ (by norm_num), ?_, ?_⟩
  · exact ⟨fun _ => 0, fun _ => 1, by decide⟩
  · intro pyHash
    have hcard : Fintype.card (Fin (2 ^ 31)) <
        Fintype.card (Fin (2 ^ 31 + 1)) := by
      rw [Fintype.card_fin, Fintype.card_fin]
      omega
    obtain ⟨i, j, hij, hfij⟩ := Fintype.exists_ne_map_eq_of_card_lt
      (fun i : Fin (2 ^ 31 + 1) =>
        (⟨point_id pyHash ⟨List.replicate i.val 'a'⟩,
          Nat.mod_lt _ (by norm_num)⟩ : Fin (2 ^ 31))) hcard
    refine ⟨⟨List.replicate i.val 'a'⟩, ⟨List.replicate j.val 'a'⟩, ?_, ?_⟩
    · intro h
      have hdata := congrArg String.data h
      simp only at hdata
      have := congrArg List.length hdata
      simp only [List.length_replicate] at this
      exact hij (Fin.ext this)
    · exact congrArg Fin.val hfij

/-- C4: chunking is deterministic — the model is a pure function of the
content, faithfully so because `chunk_by_headings` and SHA-256 hashing use
no randomness or environment, hence repeated runs give identical
`content_hash` values — and re-ingestion is idempotent: a successful ingest
stores every chunk's hash, and ingesting the same content against a state
that already holds every chunk hash reports `ingested = 0`,
`skipped = total_chunks = len(chunks)` and leaves the state unchanged.
`hembed` is the batch-embedding contract (one vector per text). -/
theorem C4_idempotent_reingest
    (embedFn : List String → Except String (List (List ℚ)))
    (hembed : ∀ ts, ∃ es, embedFn ts = .ok es ∧ es.length = ts.length)
    (db : List String) (chapter sec content : String) :
    ((chunk_by_headings content chapter sec).map (fun c => c.content_hash) =
      (chunk_by_headings content chapter sec).map (fun c => c.content_hash)) ∧
    (∀ c ∈ chunk_by_headings content chapter sec,
      c.content_hash ∈ (ingest_chapter embedFn db chapter sec content).2) ∧
    (∀ db2 : List String,
      (∀ c ∈ chunk_by_headings content chapter sec, c.content_hash ∈ db2) →
      (ingest_chapter embedFn db2 chapter sec content).1.ingested = 0 ∧
      (ingest_chapter embedFn db2 chapter sec content).1.skipped =
        (chunk_by_headings content chapter sec).length ∧
      (ingest_chapter embedFn db2 chapter sec content).1.total_chunks =
        (chunk_by_headings content chapter sec).length ∧
      (ingest_chapter embedFn db2 chapter sec content).2 = db2) := by
  refine ⟨rfl, ?_, ?_⟩
  · intro c hc
    unfold ingest_chapter
    simp only []
    split
    · rename_i hemp
      rw [List.isEmpty_iff] at hemp
      rw [hemp] at hc
      simp at hc
    · split
      · rename_i hnew
        rw [List.isEmpty_iff, List.filter_eq_nil_iff] at hnew
        have := hnew c hc
        simpa using this
      · rename_i hnew
        obtain ⟨es, hok, hlen⟩ := hembed
          ((List.filter (fun c => decide (c.content_hash ∉ db))
            (chunk_by_headings content chapter sec)).map (fun c => c.content))
        rw [hok]
        simp only [List.mem_append]
        by_cases hdb : c.content_hash ∈ db
        · exact Or.inl hdb
        · refine Or.inr ?_
          have hcin : c ∈ (chunk_by_headings content chapter sec).filter
              (fun c => decide (c.content_hash ∉ db)) :=
            List.mem_filter.mpr ⟨hc, by simpa using hdb⟩
          have hzip : ((List.filter (fun c => decide (c.content_hash ∉ db))
                (chunk_by_headings content chapter sec)).zip es).map
              (fun p => p.1.content_hash) =
              ((chunk_by_headings content chapter sec).filter
                (fun c => decide (c.content_hash ∉ db))).map
                (fun c => c.content_hash) := by
            rw [show (fun p : Chunk × List ℚ => p.1.content_hash) =
              (fun c : Chunk => c.content_hash) ∘ Prod.fst from rfl]
            rw [← List.map_map, List.map_fst_zip]
            rw [List.length_map] at hlen
            omega
          rw [hzip]
          exact List.mem_map_of_mem _ hcin
  · intro db2 hall
    unfold ingest_chapter
    simp only []
    have hfil : (chunk_by_headings content chapter sec).filter
        (fun c => decide (c.content_hash ∉ db2)) = [] :=
      List.filter_eq_nil_iff.mpr (fun c hc => by simpa using hall c hc)
    split
    · rename_i hemp
      rw [List.isEmpty_iff] at hemp
      rw [hemp]
      simp
    · rw [hfil]
      simp

/-- C4 (witness): ingesting `"Hello world."` (one chunk) into an empty
state and re-ingesting the identical content against the resulting state is
a no-op: 0 ingested, 1 skipped of 1 total, state unchanged. -/
theorem C4_witness :
    (ingest_chapter (fun ts => .ok (ts.map (fun _ => ([] : List ℚ))))
        ((ingest_chapter (fun ts => .ok (ts.map (fun _ => ([] : List ℚ))))
          [] "C" "S" "Hello world.").2) "C" "S" "Hello world.").1.ingested
        = 0 ∧
    (ingest_chapter (fun ts => .ok (ts.map (fun _ => ([] : List ℚ))))
        ((ingest_chapter (fun ts => .ok (ts.map (fun _ => ([] : List ℚ))))
          [] "C" "S" "Hello world.").2) "C" "S" "Hello world.").1.skipped
        = 1 ∧
    (ingest_chapter (fun ts => .ok (ts.map (fun _ => ([] : List ℚ))))
        ((ingest_chapter (fun ts => .ok (ts.map (fun _ => ([] : List ℚ))))
          [] "C" "S" "Hello world.").2) "C" "S"
        "Hello world.").1.total_chunks = 1 := by
  have he : ∀ ts : List String,
      ∃ es, (fun ts => Except.ok (ε := String)
          (ts.map (fun _ => ([] : List ℚ)))) ts = .ok es ∧
        es.length = ts.length :=
    fun ts => ⟨ts.map (fun _ => ([] : List ℚ)), rfl, by simp⟩
  have h := C4_idempotent_reingest _ he [] "C" "S" "Hello world."
  have hc := h.2.2 _ h.2.1
  have hlen : (chunk_by_headings "Hello world." "C" "S").length = 1 := rfl
  exact ⟨hc.1, by rw [hc.2.1, hlen], by rw [hc.2.2.1, hlen]⟩

/-- The sample retrieved chunk used by the C2 witness. -/
def sampleChunk : RetrievedChunk :=
  { doc_id := "d", chapter := "c", sectionName := "s", content := "body",
    similarity_score := 1, chunk_index := 0, subsection := none,
    book_version := "v1.0" }

/-- The sample generated answer used by the C2 witness. -/
def sampleAnswer : GeneratedAnswer :=
  { content := "ans", input_tokens := 3, output_tokens := 4 }

/-- C2 (counterexample): a retrieval-stage failure is not converted into a
best-effort answer: the `/query` boundary re-raises it as a hard HTTP 500
error. -/
theorem C2_counterexample :
    query_content (fun _ => "") (.error (.other "boom"))
      (fun _ _ => .ok { content := "", input_tokens := 0, output_tokens := 0 })
      (.ok ()) "What is ROS 2?" "full_book" =
      .error (500, "Query processing failed: boom") := rfl

/-- C2 (amended): `query_content`'s outer boundary converts any
non-`HTTPException` pipeline failure (retrieval or generation) into a hard
HTTP 500 failure whose detail wraps the original message — it does not
return a best-effort answer for them.  Best-effort responses exist only for
the no-relevant-content case (the fixed couldn't-find answer with empty
sources), and persistence failures are swallowed: the success response is
the same for every `store` outcome. -/
theorem C2_amended_error_boundary
    (fmt : ℚ → String) (gen : String → String → Except PyErr GeneratedAnswer)
    (store : Except PyErr Unit) (q mode m : String)
    (chunks : List RetrievedChunk) (g0 : GeneratedAnswer)
    (hq : pyStrip q ≠ "") :
    (query_content fmt (.error (.other m)) gen store q mode =
      .error (500, "Query processing failed: " ++ m)) ∧
    (query_content fmt (.ok []) gen store q mode =
      .ok { response := noContentAnswer, sources := [], latency_ms := 0,
            mode := mode, input_tokens := 0, output_tokens := 0 }) ∧
    (chunks ≠ [] →
      query_content fmt (.ok chunks) (fun _ _ => .error (.other m)) store
          q mode =
        .error (500, "Query processing failed: " ++ m)) ∧
    (chunks ≠ [] →
      query_content fmt (.ok chunks) (fun _ _ => .ok g0) store q mode =
        .ok { response := g0.content,
              sources := chunks.map (fun c =>
                { doc_id := c.doc_id, chapter := c.chapter,
                  sectionName := c.sectionName,
                  similarity_score := c.similarity_score,
                  content := ⟨c.content.data.take 200⟩ }),
              latency_ms := 0, mode := mode,
              input_tokens := g0.input_tokens,
              output_tokens := g0.output_tokens }) := by
  have hbool : chunks ≠ [] → chunks.isEmpty = false := by
    intro hch
    rw [Bool.eq_false_iff]
    intro hab
    exact hch (List.isEmpty_iff.mp hab)
  refine ⟨?_, ?_, ?_, ?_⟩
  · unfold query_content
    rw [if_neg hq]
  · unfold query_content
    rw [if_neg hq]
    rfl
  · intro hch
    unfold query_content
    rw [if_neg hq]
    simp [hbool hch]
  · intro hch
    unfold query_content
    rw [if_neg hq]
    simp [hbool hch]

/-- C2 (witness): at the concrete query `"q"` with one retrieved chunk and
a failing persistence write, a generation failure yields HTTP 500 and a
generation success yields the generated answer unchanged. -/
theorem C2_witness :
    (query_content (fun _ => "") (.error (.other "boom"))
        (fun _ _ => .ok sampleAnswer)
        (.error (.other "db down")) "q" "full_book" =
      .error (500, "Query processing failed: boom")) ∧
    (query_content (fun _ => "") (.ok [sampleChunk])
        (fun _ _ => .ok sampleAnswer)
        (.error (.other "db down")) "q" "full_book" =
      .ok { response := "ans",
            sources := [{ doc_id := "d", chapter := "c",
                          sectionName := "s", similarity_score := 1,
                          content := "body" }],
            latency_ms := 0, mode := "full_book", input_tokens := 3,
            output_tokens := 4 }) := by
  have h := C2_amended_error_boundary (fun _ => "")
    (fun _ _ => Except.ok sampleAnswer)
    (.error (.other "db down")) "q" "full_book" "boom"
    [sampleChunk] sampleAnswer (by decide)
  refine ⟨h.1, ?_⟩
  have h4 := h.2.2.2 (by simp)
  rw [h4]
  rfl

/-- The success response of `query_selected_text` (main.py lines 715-802),
as a function of the stripped selected text `st0`: generation sees the
(possibly truncated) text as sole context, and a failed groundedness check
replaces the answer with the fixed fallback. -/
def selectedTextResponse (estT : String → Nat)
    (generate : String → String → String → GeneratedAnswer)
    (validateFn : String → String → Bool × ℝ) (maxTokens : Nat)
    (query st0 : String) : QueryResponse :=
  let st := truncatedSelectedText maxTokens estT st0
  let generated := generate query ("[User Selected Text]\n" ++ st) st
  let validated := validateFn generated.content st
  { response :=
      if validated.1 then generated.content else selectedTextFallback,
    sources := [{ doc_id := "selected_text", chapter := "User Selection",
                  sectionName := "Highlighted Text", similarity_score := 1,
                  content := ⟨st.data.take 200⟩ }],
    latency_ms := 0, mode := "selected_text",
    input_tokens := generated.input_tokens,
    output_tokens := generated.output_tokens }

/-- C1 (counterexample): a selected text longer than the configured
`max_selected_text_characters` (default 10000) is not truncated — the call
raises HTTP 413 and rejects the request. -/
theorem C1_counterexample :
    query_selected_text (fun s => s.length / 4)
      (fun _ _ _ => { content := "", input_tokens := 0, output_tokens := 0 })
      (fun _ _ => (true, 0)) max_selected_text_characters
      max_selected_text_tokens "q" ⟨List.replicate 10001 'a'⟩ =
      .error (413, "Selected text too long (max " ++
        toString max_selected_text_characters ++ " chars)") := by
  have hrep : ∀ n, (List.replicate n 'a').dropWhile isPyWs =
      List.replicate n 'a' := by
    intro n
    cases n with
    | zero => rfl
    | succ m =>
      rw [List.replicate_succ, List.dropWhile_cons]
      simp [isPyWs]
  have hstrip : pyStrip ⟨List.replicate 10001 'a'⟩ =
      ⟨List.replicate 10001 'a'⟩ := by
    show String.mk (((List.replicate 10001 'a').dropWhile
      isPyWs).reverse.dropWhile isPyWs).reverse = _
    rw [hrep, List.reverse_replicate, hrep, List.reverse_replicate]
  have hlen : (pyStrip ⟨List.replicate 10001 'a'⟩).length = 10001 := by
    rw [hstrip]
    show (List.replicate 10001 'a').length = 10001
    rw [List.length_replicate]
  have hne2 : ¬((⟨List.replicate 10001 'a'⟩ : String) = "" ∨
      pyStrip ⟨List.replicate 10001 'a'⟩ = "") := by
    rintro (h | h)
    · have h0 := congrArg String.length h
      rw [show (String.mk (List.replicate 10001 'a')).length =
        (List.replicate 10001 'a').length from rfl,
        List.length_replicate] at h0
      simp [String.length] at h0
    · have h0 := congrArg String.length h
      rw [hlen] at h0
      simp [String.length] at h0
  unfold query_selected_text
  rw [if_neg (by decide), if_neg hne2, if_pos (by rw [hlen]; decide)]

/-- C1 (amended): over-character-limit selected text is rejected with HTTP
413, not truncated; selected text within the character limit never raises:
the call returns the success response in which generation sees the
(possibly token-truncated) text, whose character length stays within the
configured character maximum; and under the repository's character-ratio
token estimator (`int(len * 0.25)`), the proportional truncation brings
the estimated token count within `max_selected_text_tokens`. -/
theorem C1_amended_truncation (estT : String → Nat)
    (generate : String → String → String → GeneratedAnswer)
    (validateFn : String → String → Bool × ℝ) (maxC maxT : Nat)
    (query st : String) (hq : pyStrip query ≠ "") (hst : pyStrip st ≠ "") :
    (maxC < (pyStrip st).length →
      query_selected_text estT generate validateFn maxC maxT query st =
        .error (413, "Selected text too long (max " ++ toString maxC ++
          " chars)")) ∧
    ((pyStrip st).length ≤ maxC →
      query_selected_text estT generate validateFn maxC maxT query st =
        .ok (selectedTextResponse estT generate validateFn maxT query
          (pyStrip st)) ∧
      (truncatedSelectedText maxT estT (pyStrip st)).length ≤ maxC) ∧
    (∀ s : String, maxT < estimate_tokens s →
      estimate_tokens (truncatedSelectedText maxT estimate_tokens s) ≤
        maxT) := by
  have hne : ¬(st = "" ∨ pyStrip st = "") := by
    rintro (h | h)
    · exact hst (by rw [h]; rfl)
    · exact hst h
  refine ⟨?_, ?_, ?_⟩
  · intro h413
    unfold query_selected_text
    rw [if_neg hq, if_neg hne, if_pos h413]
  · intro hle
    constructor
    · unfold query_selected_text
      rw [if_neg hq, if_neg hne, if_neg (by omega)]
      rfl
    · show (if maxT < estT (pyStrip st) then
          (⟨(pyStrip st).data.take
            ((pyStrip st).length * maxT / estT (pyStrip st))⟩ : String)
          else pyStrip st).length ≤ maxC
      split
      · show (List.take _ (pyStrip st).data).length ≤ maxC
        rw [List.length_take]
        exact le_trans (min_le_right _ _) hle
      · exact hle
  · intro s hmt
    have htok0 : 0 < estimate_tokens s :=
      Nat.lt_of_le_of_lt (Nat.zero_le _) hmt
    show (if maxT < estimate_tokens s then
        (⟨s.data.take (s.length * maxT / estimate_tokens s)⟩ : String)
        else s).length / 4 ≤ maxT
    rw [if_pos hmt]
    show (List.take (s.length * maxT / estimate_tokens s) s.data).length
      / 4 ≤ maxT
    rw [List.length_take]
    refine le_trans (Nat.div_le_div_right (min_le_left _ _)) ?_
    have hl : s.length ≤ 4 * estimate_tokens s + 3 := by
      unfold estimate_tokens
      omega
    have h1 : s.length * maxT < (4 * maxT + 3) * estimate_tokens s := by
      calc s.length * maxT ≤ (4 * estimate_tokens s + 3) * maxT :=
            Nat.mul_le_mul_right _ hl
        _ = 4 * (estimate_tokens s * maxT) + 3 * maxT := by ring
        _ < 4 * (estimate_tokens s * maxT) + 3 * estimate_tokens s := by
            have h3 : 3 * maxT < 3 * estimate_tokens s := by omega
            omega
        _ = (4 * maxT + 3) * estimate_tokens s := by ring
    have h2 : s.length * maxT / estimate_tokens s < 4 * maxT + 3 :=
      (Nat.div_lt_iff_lt_mul htok0).mpr h1
    omega

/-- C1 (witness): the non-raising branch at the default limits with the
11-character text `"hello world"` (no truncation needed), and the
token-bound at limit 1 on `"aaaaaaaa"` (8 chars, 2 estimated tokens),
truncated to 4 characters = 1 estimated token. -/
theorem C1_witness :
    (query_selected_text estimate_tokens
        (fun _ _ _ =>
          { content := "ok", input_tokens := 1, output_tokens := 1 })
        (fun _ _ => (true, 0)) max_selected_text_characters
        max_selected_text_tokens "q" "hello world" =
      .ok (selectedTextResponse estimate_tokens
        (fun _ _ _ =>
          { content := "ok", input_tokens := 1, output_tokens := 1 })
        (fun _ _ => (true, 0)) max_selected_text_tokens "q"
        "hello world")) ∧
    estimate_tokens (truncatedSelectedText 1 estimate_tokens "aaaaaaaa") ≤
      1 := by
  constructor
  · have h := (C1_amended_truncation estimate_tokens
      (fun _ _ _ =>
        { content := "ok", input_tokens := 1, output_tokens := 1 })
      (fun _ _ => (true, 0)) max_selected_text_characters
      max_selected_text_tokens "q" "hello world"
      (by decide) (by decide)).2.1 (by decide)
    exact h.1
  · exact (C1_amended_truncation estimate_tokens
      (fun _ _ _ =>
        { content := "ok", input_tokens := 1, output_tokens := 1 })
      (fun _ _ => (true, 0)) max_selected_text_characters 1 "q"
      "hello world" (by decide) (by decide)).2.2 "aaaaaaaa" (by decide)

/-- Helper: within the character limit, the selected-text endpoint returns
the success response (shared shape of the main.py lines 715-802 path). -/
theorem query_selected_text_ok (estT : String → Nat)
    (generate : String → String → String → GeneratedAnswer)
    (validateFn : String → String → Bool × ℝ) (maxC maxT : Nat)
    (query st : String) (hq : pyStrip query ≠ "") (hst : pyStrip st ≠ "")
    (hle : (pyStrip st).length ≤ maxC) :
    query_selected_text estT generate validateFn maxC maxT query st =
      .ok (selectedTextResponse estT generate validateFn maxT query
        (pyStrip st)) := by
  have hne : ¬(st = "" ∨ pyStrip st = "") := by
    rintro (h | h)
    · exact hst (by rw [h]; rfl)
    · exact hst h
  unfold query_selected_text
  rw [if_neg hq, if_neg hne, if_neg (by omega)]
  rfl

/-- C6: the groundedness validator returns true exactly when the cosine
similarity of the answer and selected-text embeddings is at least 3/4
(the 0.75 threshold; with a zero-norm embedding the code returns false and
the total-division cosine is 0, so the equivalence still holds); and on
any within-limit selected-text query whose generated answer fails that
threshold, the endpoint's returned answer is the fixed fallback message —
the ungrounded answer is not returned. -/
theorem C6_groundedness_threshold_fallback :
    (∀ (embed : String → List ℝ) (response selected : String),
      (validate_response_in_context embed response selected).1 = true ↔
        (3 / 4 : ℝ) ≤ cosineSim (embed response) (embed selected)) ∧
    (∀ (estT : String → Nat)
      (generate : String → String → String → GeneratedAnswer)
      (embed : String → List ℝ) (maxC maxT : Nat) (query st : String),
      pyStrip query ≠ "" → pyStrip st ≠ "" →
      (pyStrip st).length ≤ maxC →
      query_selected_text estT generate (validate_response_in_context embed)
          maxC maxT query st =
        .ok (selectedTextResponse estT generate
          (validate_response_in_context embed) maxT query (pyStrip st)) ∧
      (¬ (3 / 4 : ℝ) ≤
          cosineSim
            (embed (generate query
              ("[User Selected Text]\n" ++
                truncatedSelectedText maxT estT (pyStrip st))
              (truncatedSelectedText maxT estT (pyStrip st))).content)
            (embed (truncatedSelectedText maxT estT (pyStrip st))) →
        (selectedTextResponse estT generate
          (validate_response_in_context embed) maxT query
          (pyStrip st)).response = selectedTextFallback)) := by
  have hvalid : ∀ (embed : String → List ℝ) (response selected : String),
      (validate_response_in_context embed response selected).1 = true ↔
        (3 / 4 : ℝ) ≤ cosineSim (embed response) (embed selected) := by
    intro embed r s
    simp only [validate_response_in_context]
    split
    · rename_i h0
      simp only [Bool.false_eq_true, false_iff]
      unfold cosineSim
      rcases h0 with h | h
      · rw [h, zero_mul, div_zero]
        norm_num
      · rw [h, mul_zero, div_zero]
        norm_num
    · simp only [decide_eq_true_eq]
      unfold cosineSim
      norm_num
  refine ⟨hvalid, ?_⟩
  intro estT generate embed maxC maxT query st hq hst hle
  refine ⟨query_selected_text_ok _ _ _ _ _ _ _ hq hst hle, ?_⟩
  intro hcos
  show (if (validate_response_in_context embed
      (generate query
        ("[User Selected Text]\n" ++
          truncatedSelectedText maxT estT (pyStrip st))
        (truncatedSelectedText maxT estT (pyStrip st))).content
      (truncatedSelectedText maxT estT (pyStrip st))).1 = true then
      (generate query
        ("[User Selected Text]\n" ++
          truncatedSelectedText maxT estT (pyStrip st))
        (truncatedSelectedText maxT estT (pyStrip st))).content
    else selectedTextFallback) = selectedTextFallback
  rw [if_neg]
  rw [hvalid]
  exact hcos

/-- A demonstration embedding for the C6 witness: the ungrounded answer
maps to `[1, 0]`, everything else to `[0, 1]` (near-orthogonal vectors,
spec Scenario D). -/
noncomputable def embedDemo : String → List ℝ :=
  fun s => if s = "Paris is the capital of France" then [1, 0] else [0, 1]

/-- The fixed generation agent of the C6 witness. -/
def generateDemo : String → String → String → GeneratedAnswer :=
  fun _ _ _ =>
    { content := "Paris is the capital of France", input_tokens := 0,
      output_tokens := 0 }

/-- C6 (witness): Scenario D — selected text `"The sky is blue."`, answer
`"Paris is the capital of France"`, orthogonal embeddings: the endpoint
returns the success response whose answer is the fixed fallback message,
not the ungrounded text. -/
theorem C6_witness :
    query_selected_text estimate_tokens generateDemo
        (validate_response_in_context embedDemo)
        max_selected_text_characters max_selected_text_tokens
        "q" "The sky is blue." =
      .ok (selectedTextResponse estimate_tokens generateDemo
        (validate_response_in_context embedDemo) max_selected_text_tokens
        "q" (pyStrip "The sky is blue.")) ∧
    (selectedTextResponse estimate_tokens generateDemo
      (validate_response_in_context embedDemo) max_selected_text_tokens
      "q" (pyStrip "The sky is blue.")).response = selectedTextFallback := by
  have h := C6_groundedness_threshold_fallback.2 estimate_tokens
    generateDemo embedDemo max_selected_text_characters
    max_selected_text_tokens "q" "The sky is blue."
    (by decide) (by decide) (by decide)
  refine ⟨h.1, h.2 ?_⟩
  have hT : truncatedSelectedText max_selected_text_tokens estimate_tokens
      (pyStrip "The sky is blue.") = "The sky is blue." := rfl
  rw [hT]
  have h1 : embedDemo (generateDemo "q"
      ("[User Selected Text]\n" ++ "The sky is blue.")
      "The sky is blue.").content = [1, 0] := by
    simp [embedDemo, generateDemo]
  have h2 : embedDemo "The sky is blue." = [0, 1] := by
    simp [embedDemo]
  rw [h1, h2]
  have hcos : cosineSim ([1, 0] : List ℝ) [0, 1] = 0 := by
    simp [cosineSim, dotR, normR]
  rw [hcos]
  norm_num
